import Mathlib

/-!
Shallow embedding of the performance-instrumentation core of AncestralClust
(src/performance.h, src/performance.c).

Modelling conventions:
* C strings (bounded char arrays) are `List Char`; `strncpy`/`snprintf`
  truncation to `PERF_MAX_LABEL_LEN - 1` usable bytes is `List.take 63`.
* C `double` is modelled as `ℚ` (the claims under study concern signs,
  equalities and decimal renderings, all exact).
* Machine integers are `ℤ`/`ℕ`; none of the verified paths overflow.
* The global `g_perf_context` struct is the state type `perf_context_t`;
  every mutating C function becomes a state-passing function.
* External effects are explicit inputs: `clock_gettime` results are
  `Timestamp` arguments, the OS memory probe an `OsMem` argument, the CPU
  probe a `perf_cpu_t` argument, `fopen` results an `Option ℕ` handle,
  `malloc` success a `Bool`, and `sqrt` from libm an explicit `ℚ → ℚ`
  function argument.
* Emission (`fprintf`) is modelled by returning the written characters;
  it never mutates the recording state, matching the C code.
-/

namespace AncestralClustPerf

/-- CStr models a C character string as the list of its characters. -/
abbrev CStr := List Char

/-- lit converts a Lean string literal to its character list. -/
def lit (s : String) : CStr := s.data

/-- PERF_MAX_LABEL_LEN from performance.h. -/
def PERF_MAX_LABEL_LEN : ℕ := 64

/-- PERF_MAX_LOG_ENTRIES from performance.h. -/
def PERF_MAX_LOG_ENTRIES : ℕ := 10000

/-- PERF_MAX_THREADS from performance.h. -/
def PERF_MAX_THREADS : ℕ := 256

/-- PERF_MILESTONE_COUNT: number of constructors of perf_milestone_t. -/
def PERF_MILESTONE_COUNT : ℕ := 47

/-- Index of PERF_MILESTONE_CLUSTERING_ITERATION in perf_milestone_t. -/
def PERF_MILESTONE_CLUSTERING_ITERATION : ℕ := 21

/-- Index of PERF_MILESTONE_USER_1 in perf_milestone_t. -/
def PERF_MILESTONE_USER_1 : ℕ := 42

/-- perf_timestamp_t: a timespec plus the (always zero) cycle counter. -/
structure perf_timestamp_t where
  tv_sec : ℤ
  tv_nsec : ℕ
  cycles : ℕ
deriving DecidableEq

/-- The all-zero timestamp (memset result). -/
def zeroTimestamp : perf_timestamp_t := ⟨0, 0, 0⟩

/-- perf_memory_t from performance.h. -/
structure perf_memory_t where
  rss_kb : ℕ
  virt_kb : ℕ
  peak_rss_kb : ℕ
  heap_allocated : ℕ
  heap_freed : ℕ
  allocation_count : ℕ
  free_count : ℕ
deriving DecidableEq

/-- The all-zero memory snapshot (memset result). -/
def zeroMemory : perf_memory_t := ⟨0, 0, 0, 0, 0, 0, 0⟩

/-- perf_cpu_t from performance.h. -/
structure perf_cpu_t where
  cpu_percent : ℚ
  user_time : ℚ
  system_time : ℚ
  context_switches : ℕ
  cache_misses : ℕ
deriving DecidableEq

/-- The all-zero CPU snapshot (memset result). -/
def zeroCpu : perf_cpu_t := ⟨0, 0, 0, 0, 0⟩

/-- perf_thread_data_t from performance.h. -/
structure perf_thread_data_t where
  thread_id : ℤ
  omp_thread_num : ℤ
  start_time : perf_timestamp_t
  end_time : perf_timestamp_t
  memory : perf_memory_t
  cpu : perf_cpu_t
  operations_count : ℕ
  label : CStr
deriving DecidableEq

/-- The all-zero per-thread slot (memset result). -/
def zeroThreadData : perf_thread_data_t :=
  ⟨0, 0, zeroTimestamp, zeroTimestamp, zeroMemory, zeroCpu, 0, []⟩

/-- perf_metrics_t: one record of the log buffer, from performance.h. -/
structure perf_metrics_t where
  milestone : ℕ
  timestamp : perf_timestamp_t
  duration_ms : ℚ
  memory : perf_memory_t
  cpu : perf_cpu_t
  thread_count : ℤ
  iteration_number : ℤ
  convergence_metric : ℚ
  label : CStr
  context : CStr
deriving DecidableEq

/-- The all-zero record, used as a concrete stand-in for the uninitialized
contents of the freshly malloc-ed log buffer. -/
def zeroMetrics : perf_metrics_t :=
  ⟨0, zeroTimestamp, 0, zeroMemory, zeroCpu, 0, 0, 0, [], []⟩

/-- perf_config_t from performance.h. Output formats, granularities and log
levels keep their C integer codes; `output_file` is `none` for a NULL FILE
pointer and `some h` for an open stream handle. -/
structure perf_config_t where
  enabled : Bool
  granularity : ℕ
  log_level : ℕ
  output_format : ℕ
  output_file : Option ℕ
  output_filename : CStr
  flush_immediately : Bool
  track_memory : Bool
  track_cpu : Bool
  track_threads : Bool
  sampling_interval_us : ℕ
deriving DecidableEq

/-- Integer code of PERF_FORMAT_CSV in perf_output_format_t. -/
def PERF_FORMAT_CSV : ℕ := 1

/-- Integer code of PERF_FORMAT_JSON in perf_output_format_t. -/
def PERF_FORMAT_JSON : ℕ := 2

/-- perf_context_t: the whole global g_perf_context from performance.h.
The malloc-ed record buffer and the fixed arrays are total functions from
indices; reads and writes only ever use in-range indices except where the C
code itself indexes out of bounds (see perf_register_thread). -/
structure perf_context_t where
  config : perf_config_t
  log_entries : ℕ → perf_metrics_t
  log_count : ℕ
  log_capacity : ℕ
  thread_data : ℕ → perf_thread_data_t
  program_start_time : perf_timestamp_t
  allocation_counter : ℕ
  bytes_allocated : ℕ
  bytes_freed : ℕ
  active_threads : ℤ
  milestone_starts : ℕ → perf_timestamp_t
  milestone_active : ℕ → Bool
  total_runtime_ms : ℚ
  peak_memory_kb : ℕ
  max_threads_used : ℤ

/-- updFn is in-place array-slot assignment: `a[i] = x` on a C array
modelled as a function. -/
def updFn {α : Type} (f : ℕ → α) (i : ℕ) (x : α) : ℕ → α :=
  fun j => if j = i then x else f j

/-- tsMs renders a timestamp in milliseconds, as in perf_timestamp_diff_ms:
`tv_sec * 1000.0 + tv_nsec / 1000000.0`. -/
def tsMs (t : perf_timestamp_t) : ℚ :=
  (t.tv_sec : ℚ) * 1000 + (t.tv_nsec : ℚ) / 1000000

/-- perf_timestamp_diff_ms from performance.c (the NULL-pointer guard is
dropped: every embedded call site passes addresses of live structs). -/
def perf_timestamp_diff_ms (start finish : perf_timestamp_t) : ℚ :=
  tsMs finish - tsMs start

/-- perf_init_with_config from performance.c, in the case where the buffer
malloc succeeds (the failure case returns -1 and installs no state).
`junkEntries` is the uninitialized content of the freshly malloc-ed buffer;
`now` is the clock value read for program_start_time. The preceding
memset zeroes every other field. -/
def perf_init_with_config (config : perf_config_t)
    (junkEntries : ℕ → perf_metrics_t) (now : perf_timestamp_t) :
    perf_context_t where
  config := config
  log_entries := junkEntries
  log_count := 0
  log_capacity := PERF_MAX_LOG_ENTRIES
  thread_data := fun _ => zeroThreadData
  program_start_time := now
  allocation_counter := 0
  bytes_allocated := 0
  bytes_freed := 0
  active_threads := 0
  milestone_starts := fun _ => zeroTimestamp
  milestone_active := fun _ => false
  total_runtime_ms := 0
  peak_memory_kb := 0
  max_threads_used := 0

/-- The default configuration built by perf_init in performance.c
(stderr is stream handle 2). -/
def default_config : perf_config_t where
  enabled := true
  granularity := 1
  log_level := 2
  output_format := 0
  output_file := some 2
  output_filename := lit "performance.log"
  flush_immediately := false
  track_memory := true
  track_cpu := true
  track_threads := true
  sampling_interval_us := 100000

/-- perf_reset from performance.c. -/
def perf_reset (s : perf_context_t) (now : perf_timestamp_t) :
    perf_context_t :=
  if s.config.enabled = false then s
  else
    { s with
      log_count := 0
      total_runtime_ms := 0
      peak_memory_kb := 0
      max_threads_used := 0
      program_start_time := now
      milestone_active := fun _ => false }

/-- perf_get_thread_count from performance.c (atomic load of
active_threads). -/
def perf_get_thread_count (s : perf_context_t) : ℤ :=
  s.active_threads

/-- The OS-reported part of a memory probe (VmRSS/VmSize/VmPeak). -/
structure OsMem where
  rss_kb : ℕ
  virt_kb : ℕ
  peak_rss_kb : ℕ
deriving DecidableEq

/-- perf_get_memory_usage from performance.c, success path: the struct is
memset to zero, the OS fields are read from /proc, and the heap counters
are copied from the global context; free_count is never written and stays
zero. -/
def perf_get_memory_usage (s : perf_context_t) (os : OsMem) : perf_memory_t where
  rss_kb := os.rss_kb
  virt_kb := os.virt_kb
  peak_rss_kb := os.peak_rss_kb
  heap_allocated := s.bytes_allocated
  heap_freed := s.bytes_freed
  allocation_count := s.allocation_counter
  free_count := 0

/-- strncpy of a label into a PERF_MAX_LABEL_LEN buffer followed by forced
NUL termination at index 63: keeps at most 63 characters. -/
def copyLabel (src : CStr) : CStr := src.take (PERF_MAX_LABEL_LEN - 1)

/-- perf_start_milestone_labeled from performance.c. The label parameter
is accepted and ignored, as in the C code; `now` is the clock reading. -/
def perf_start_milestone_labeled (s : perf_context_t) (milestone : ℕ)
    (_label : Option CStr) (now : perf_timestamp_t) : perf_context_t :=
  if s.config.enabled = false ∨ PERF_MILESTONE_COUNT ≤ milestone then s
  else
    { s with
      milestone_starts := updFn s.milestone_starts milestone now
      milestone_active := updFn s.milestone_active milestone true }

/-- perf_end_milestone_labeled from performance.c. `now` is the clock
reading for end_time, `os` and `cpu` the probe results used when memory and
CPU tracking are on. The flush_immediately branch calls perf_flush_logs,
which only writes output and never mutates the recording state, so it does
not appear in the state transition. -/
def perf_end_milestone_labeled (s : perf_context_t) (milestone : ℕ)
    (label : Option CStr) (now : perf_timestamp_t) (os : OsMem)
    (cpu : perf_cpu_t) : perf_context_t :=
  if s.config.enabled = false ∨ PERF_MILESTONE_COUNT ≤ milestone then s
  else if s.milestone_active milestone = false then s
  else
    let duration_ms :=
      perf_timestamp_diff_ms (s.milestone_starts milestone) now
    let s1 :=
      if s.log_count < s.log_capacity then
        let old := s.log_entries s.log_count
        let entry : perf_metrics_t :=
          { old with
            milestone := milestone
            timestamp := now
            duration_ms := duration_ms
            thread_count := perf_get_thread_count s
            iteration_number := 0
            convergence_metric := 0
            label := match label with
              | some l => copyLabel l
              | none => []
            memory := if s.config.track_memory then
                perf_get_memory_usage s os
              else old.memory
            cpu := if s.config.track_cpu then cpu else old.cpu }
        { s with
          log_entries := updFn s.log_entries s.log_count entry
          log_count := s.log_count + 1 }
      else s
    { s1 with milestone_active := updFn s1.milestone_active milestone false }

/-- perf_log_event_with_context from performance.c. Only the fields
milestone, timestamp, duration_ms, thread_count, label and context of the
claimed slot are written; the rest keep their previous in-buffer values. -/
def perf_log_event_with_context (s : perf_context_t) (label : Option CStr)
    (value : ℚ) (context : Option CStr) (now : perf_timestamp_t) :
    perf_context_t :=
  if s.config.enabled = false then s
  else
    match label with
    | none => s
    | some l =>
      if s.log_count < s.log_capacity then
        let old := s.log_entries s.log_count
        let entry : perf_metrics_t :=
          { old with
            milestone := PERF_MILESTONE_USER_1
            timestamp := now
            duration_ms := value
            thread_count := perf_get_thread_count s
            label := copyLabel l
            context := match context with
              | some c => copyLabel c
              | none => [] }
        { s with
          log_entries := updFn s.log_entries s.log_count entry
          log_count := s.log_count + 1 }
      else s

/-- digitChar d is the ASCII digit for d < 10, as printf renders decimal
digits. -/
def digitChar (d : ℕ) : Char := Char.ofNat (48 + d)

/-- natDigitsAux is the recursion of decimal rendering, made structural on
a fuel argument so that it reduces inside the kernel; `n` has at most
`n + 1` decimal digits, so the fuel in natDigits never runs out. -/
def natDigitsAux : ℕ → ℕ → CStr
  | 0, _ => []
  | fuel + 1, n =>
    if n < 10 then [digitChar n]
    else natDigitsAux fuel (n / 10) ++ [digitChar (n % 10)]

/-- natDigits renders a natural number in decimal, most significant digit
first, exactly as printf's %zu / the digits of %d. -/
def natDigits (n : ℕ) : CStr := natDigitsAux (n + 1) n

/-- intRepr renders a signed integer in decimal as printf's %d / %ld. -/
def intRepr (i : ℤ) : CStr :=
  if i < 0 then '-' :: natDigits i.natAbs else natDigits i.natAbs

/-- padZeros left-pads a digit string with zeros to width w, as printf's
zero-padded width (%09ld) and the fractional part of %.Nf. -/
def padZeros (w : ℕ) (s : CStr) : CStr :=
  List.replicate (w - s.length) '0' ++ s

/-- formatFixed prec v renders v as printf's %.{prec}f (prec ≥ 1 in every
use: %.2f, %.3f, %.6f). The scaled value |v|·10^prec is rounded to the
nearest integer with ties to even, the default IEEE rounding applied by
printf's %f conversions; the computation works on the numerator and
denominator directly (|v|·10^prec = scaled/d below, and v < 0 iff its
numerator is negative). -/
def formatFixed (prec : ℕ) (v : ℚ) : CStr :=
  let sign : CStr := if v.num < 0 then ['-'] else []
  let scaled := v.num.natAbs * 10 ^ prec
  let d := v.den
  let ip0 := scaled / d
  let rem := scaled % d
  let n :=
    if 2 * rem < d then ip0
    else if d < 2 * rem then ip0 + 1
    else if ip0 % 2 = 0 then ip0 else ip0 + 1
  sign ++ natDigits (n / 10 ^ prec) ++
    '.' :: padZeros prec (natDigits (n % 10 ^ prec))

/-- perf_log_iteration from performance.c. -/
def perf_log_iteration (s : perf_context_t) (iteration : ℤ)
    (convergence_metric : ℚ) (now : perf_timestamp_t) : perf_context_t :=
  if s.config.enabled = false then s
  else if s.log_count < s.log_capacity then
    let old := s.log_entries s.log_count
    let entry : perf_metrics_t :=
      { old with
        milestone := PERF_MILESTONE_CLUSTERING_ITERATION
        timestamp := now
        duration_ms := 0
        thread_count := perf_get_thread_count s
        iteration_number := iteration
        convergence_metric := convergence_metric
        label := (lit "iteration_" ++ intRepr iteration).take
          (PERF_MAX_LABEL_LEN - 1)
        context := (lit "convergence=" ++ formatFixed 6 convergence_metric).take
          (PERF_MAX_LABEL_LEN - 1) }
    { s with
      log_entries := updFn s.log_entries s.log_count entry
      log_count := s.log_count + 1 }
  else s

/-- perf_log_algorithm_step from performance.c: composes the label and
context via snprintf into PERF_MAX_LABEL_LEN buffers and delegates to
perf_log_event_with_context. -/
def perf_log_algorithm_step (s : perf_context_t)
    (algorithm stepName : Option CStr) (metric : ℚ)
    (now : perf_timestamp_t) : perf_context_t :=
  if s.config.enabled = false ∨ algorithm = none ∨ stepName = none then s
  else
    let label := (algorithm.getD [] ++ '_' :: stepName.getD []).take
      (PERF_MAX_LABEL_LEN - 1)
    let context := (lit "metric=" ++ formatFixed 6 metric).take
      (PERF_MAX_LABEL_LEN - 1)
    perf_log_event_with_context s (some label) metric (some context) now

/-- perf_register_thread from performance.c (the non-OpenMP build, where
omp_thread_num is set to -1; the thread-local id store is modelled by the
returned id). The C code performs `g_perf_context.thread_data[thread_id]`
writes with NO bound check: a returned id ≥ PERF_MAX_THREADS means the C
code wrote past the end of the 256-slot array (undefined behavior); the
embedding represents that store on the total-function model. `now` is the
clock reading for the slot's start_time. -/
def perf_register_thread (s : perf_context_t) (now : perf_timestamp_t) :
    ℤ × perf_context_t :=
  if s.config.enabled = false ∨ s.config.track_threads = false then (-1, s)
  else
    let thread_count := s.active_threads
    let s1 := { s with active_threads := thread_count + 1 }
    let thread_id := thread_count
    let s2 :=
      if 0 ≤ thread_id then
        let i := thread_id.toNat
        { s1 with
          thread_data := updFn s1.thread_data i
            { s1.thread_data i with
              omp_thread_num := -1
              thread_id := thread_id
              start_time := now } }
      else s1
    let s3 :=
      if s2.max_threads_used < thread_count + 1 then
        { s2 with max_threads_used := thread_count + 1 }
      else s2
    (thread_id, s3)

/-- perf_unregister_thread from performance.c (non-OpenMP build): `tlsId`
is the calling thread's stored thread-local id. -/
def perf_unregister_thread (s : perf_context_t) (tlsId : ℤ)
    (now : perf_timestamp_t) : perf_context_t :=
  if s.config.enabled = false ∨ s.config.track_threads = false then s
  else
    let s1 :=
      if 0 ≤ tlsId ∧ tlsId < (PERF_MAX_THREADS : ℤ) then
        let i := tlsId.toNat
        { s with
          thread_data := updFn s.thread_data i
            { s.thread_data i with end_time := now } }
      else s
    { s1 with active_threads := s1.active_threads - 1 }

/-- The milestone_names table from performance.c. -/
def milestone_names : List CStr :=
  [lit "PROGRAM_START", lit "PROGRAM_END", lit "OPTION_PARSING",
   lit "INITIALIZATION", lit "CLEANUP",
   lit "FASTA_LOAD_START", lit "FASTA_LOAD_END", lit "FASTA_PARSE",
   lit "TAXONOMY_LOAD", lit "OUTPUT_WRITE",
   lit "DISTANCE_MATRIX_START", lit "DISTANCE_MATRIX_END",
   lit "DISTANCE_CALCULATION", lit "DISTANCE_PTHREAD_SECTION",
   lit "DISTANCE_AVERAGE_CALC",
   lit "TREE_CONSTRUCTION_START", lit "TREE_CONSTRUCTION_END",
   lit "TREE_NODE_CREATION", lit "TREE_BRANCH_LENGTH_CALC",
   lit "CLUSTERING_START", lit "CLUSTERING_END", lit "CLUSTERING_ITERATION",
   lit "CLUSTER_ASSIGNMENT", lit "CLUSTER_CENTROID_UPDATE",
   lit "CLUSTER_CONVERGENCE_CHECK", lit "CLUSTER_INITIALIZATION",
   lit "ALIGNMENT_START", lit "ALIGNMENT_END", lit "KALIGN_EXECUTION",
   lit "WFA2_EXECUTION", lit "NEEDLEMAN_WUNSCH", lit "SEQUENCE_ALIGNMENT",
   lit "MSA_CONSTRUCTION",
   lit "OMP_PARALLEL_START", lit "OMP_PARALLEL_END", lit "OMP_THREAD_SPAWN",
   lit "OMP_THREAD_JOIN", lit "OMP_BARRIER",
   lit "MEMORY_ALLOC", lit "MEMORY_FREE", lit "MEMORY_REALLOC",
   lit "LARGE_ALLOCATION",
   lit "USER_1", lit "USER_2", lit "USER_3", lit "USER_4", lit "USER_5"]

/-- perf_milestone_name from performance.c. -/
def perf_milestone_name (milestone : ℕ) : CStr :=
  if milestone < PERF_MILESTONE_COUNT then
    milestone_names.getD milestone (lit "UNKNOWN")
  else lit "UNKNOWN"

/-- The characters written for one record by the PERF_FORMAT_CSV branch of
perf_flush_logs. -/
def csvRow (e : perf_metrics_t) : CStr :=
  intRepr e.timestamp.tv_sec ++ '.' :: padZeros 9 (natDigits e.timestamp.tv_nsec)
    ++ ',' :: perf_milestone_name e.milestone
    ++ ',' :: formatFixed 3 e.duration_ms
    ++ ',' :: natDigits e.memory.rss_kb
    ++ ',' :: natDigits e.memory.virt_kb
    ++ ',' :: intRepr e.thread_count
    ++ ',' :: intRepr e.iteration_number
    ++ ',' :: formatFixed 6 e.convergence_metric
    ++ ',' :: formatFixed 2 e.cpu.cpu_percent
    ++ ',' :: e.label
    ++ ',' :: e.context ++ ['\n']

/-- The characters written for one record by the PERF_FORMAT_HUMAN /
default branch of perf_flush_logs. -/
def humanRow (e : perf_metrics_t) : CStr :=
  '[' :: intRepr e.timestamp.tv_sec ++ '.' :: padZeros 9 (natDigits e.timestamp.tv_nsec)
    ++ ']' :: ' ' :: perf_milestone_name e.milestone
    ++ ':' :: ' ' :: formatFixed 3 e.duration_ms
    ++ lit " ms, RSS: " ++ natDigits e.memory.rss_kb
    ++ lit " KB, Threads: " ++ intRepr e.thread_count
    ++ lit ", " ++ e.label ++ ['\n']

/-- perf_flush_logs from performance.c: returns the characters written to
the configured output stream (the PERF_FORMAT_JSON case is an empty TODO
in the source and writes nothing; every other non-CSV format falls into
the default human branch). The recording state is not mutated. -/
def perf_flush_logs (s : perf_context_t) : CStr :=
  if s.config.enabled = false ∨ s.config.output_file = none then []
  else
    ((List.range s.log_count).map (fun i =>
      let e := s.log_entries i
      if s.config.output_format = PERF_FORMAT_CSV then csvRow e
      else if s.config.output_format = PERF_FORMAT_JSON then []
      else humanRow e)).flatten

/-- The CSV header line written by perf_export_csv. -/
def csvHeader : CStr :=
  lit "timestamp,milestone,duration_ms,memory_rss_kb,memory_virt_kb,thread_count,iteration,convergence_metric,cpu_percent,label,context\n"

/-- perf_export_csv from performance.c, for a non-NULL filename.
`openResult` is the fopen result (`none` = open failed). Returns the final
state and the characters written to the newly opened file. -/
def perf_export_csv (s : perf_context_t) (openResult : Option ℕ) :
    perf_context_t × CStr :=
  let old_output := s.config.output_file
  let old_format := s.config.output_format
  match openResult with
  | none =>
    ({ s with config := { s.config with output_file := old_output } }, [])
  | some h =>
    let s1 := { s with config :=
      { s.config with output_file := some h, output_format := PERF_FORMAT_CSV } }
    let written := csvHeader ++ perf_flush_logs s1
    ({ s1 with config :=
      { s1.config with output_file := old_output, output_format := old_format } },
     written)

/-- perf_statistics_t from performance.h. -/
structure perf_statistics_t where
  min : ℚ
  max : ℚ
  mean : ℚ
  std_dev : ℚ
  median : ℚ
  percentile_95 : ℚ
  percentile_99 : ℚ
  sample_count : ℕ
deriving DecidableEq

/-- The all-zero statistics struct (memset result). -/
def zeroStatistics : perf_statistics_t := ⟨0, 0, 0, 0, 0, 0, 0, 0⟩

/-- perf_get_milestone_statistics from performance.c. `sqrtFn` is libm's
sqrt; `statsPtr` is the pointed-to contents of the stats argument (`none`
for a NULL pointer); `allocOk` is whether the samples malloc succeeds.
Returns the C return value and the final contents of *stats. -/
def perf_get_milestone_statistics (sqrtFn : ℚ → ℚ) (s : perf_context_t)
    (milestone : ℕ) (statsPtr : Option perf_statistics_t) (allocOk : Bool) :
    ℤ × Option perf_statistics_t :=
  match statsPtr with
  | none => (-1, none)
  | some old =>
    if PERF_MILESTONE_COUNT ≤ milestone then (-1, some old)
    else
      if allocOk = false then (-1, some zeroStatistics)
      else
        let samples := ((List.range s.log_count).filter
            (fun i => (s.log_entries i).milestone = milestone)).map
          (fun i => (s.log_entries i).duration_ms)
        if samples.length = 0 then (-1, some zeroStatistics)
        else
          let first := samples.headD 0
          let mn := samples.foldl (fun a x => if x < a then x else a) first
          let mx := samples.foldl (fun a x => if a < x then x else a) first
          let mean := samples.foldl (· + ·) 0 / (samples.length : ℚ)
          let varianceSum :=
            samples.foldl (fun a x => a + (x - mean) * (x - mean)) 0
          (0, some
            { min := mn
              max := mx
              mean := mean
              std_dev := sqrtFn (varianceSum / (samples.length : ℚ))
              median := 0
              percentile_95 := 0
              percentile_99 := 0
              sample_count := samples.length })

/-- Op enumerates one call of the public recording API together with the
external inputs (clock readings, probe results, arguments) it consumes. -/
inductive Op where
  | startM (milestone : ℕ) (label : Option CStr) (now : perf_timestamp_t)
  | endM (milestone : ℕ) (label : Option CStr) (now : perf_timestamp_t)
      (os : OsMem) (cpu : perf_cpu_t)
  | logEvent (label : Option CStr) (value : ℚ) (context : Option CStr)
      (now : perf_timestamp_t)
  | logIteration (iteration : ℤ) (metric : ℚ) (now : perf_timestamp_t)
  | algorithmStep (algorithm stepName : Option CStr) (metric : ℚ)
      (now : perf_timestamp_t)
  | registerThread (now : perf_timestamp_t)
  | unregisterThread (tlsId : ℤ) (now : perf_timestamp_t)
  | resetCtx (now : perf_timestamp_t)

/-- applyOp runs one API call on the global context. -/
def applyOp (op : Op) (s : perf_context_t) : perf_context_t :=
  match op with
  | .startM k l t => perf_start_milestone_labeled s k l t
  | .endM k l t os c => perf_end_milestone_labeled s k l t os c
  | .logEvent l v c t => perf_log_event_with_context s l v c t
  | .logIteration i m t => perf_log_iteration s i m t
  | .algorithmStep a st m t => perf_log_algorithm_step s a st m t
  | .registerThread t => (perf_register_thread s t).2
  | .unregisterThread i t => perf_unregister_thread s i t
  | .resetCtx t => perf_reset s t

/-- run executes a sequence of API calls left to right. -/
def run (ops : List Op) (s : perf_context_t) : perf_context_t :=
  ops.foldl (fun acc op => applyOp op acc) s

/-! Concrete states shared by the witnesses and counterexamples below. -/

/-- The zero clock reading. -/
def ts0 : perf_timestamp_t := ⟨0, 0, 0⟩

/-- A later clock reading (2 s + 500 ns). -/
def ts1 : perf_timestamp_t := ⟨2, 500, 0⟩

/-- A zero OS memory probe result. -/
def osm0 : OsMem := ⟨0, 0, 0⟩

/-- A concrete stand-in for the uninitialized malloc-ed buffer. -/
def junkEntries0 : ℕ → perf_metrics_t := fun _ => zeroMetrics

/-- The context right after perf_init (default config, enabled). -/
def ctx0 : perf_context_t := perf_init_with_config default_config junkEntries0 ts0

/-- The default configuration with recording disabled. -/
def disabled_config : perf_config_t := { default_config with enabled := false }

/-- A freshly initialized context with recording disabled. -/
def ctxDisabled : perf_context_t :=
  perf_init_with_config disabled_config junkEntries0 ts0

/-- A context whose log buffer is exactly full. -/
def ctxFull : perf_context_t := { ctx0 with log_count := PERF_MAX_LOG_ENTRIES }

/-- One publish attempt (a fixed concrete event call), used to iterate
attempts against the bounded buffer. -/
def evStep : perf_context_t → perf_context_t :=
  fun s => perf_log_event_with_context s (some (lit "x")) 0 none ts0

/-- One thread registration step (state part only). -/
def regStep : perf_context_t → perf_context_t :=
  fun s => (perf_register_thread s ts0).2

/-- A statistics struct that is visibly not zeroed. -/
def nzStatistics : perf_statistics_t :=
  { zeroStatistics with sample_count := 5 }

/-- A context holding one event record (label "d", value -1). -/
def ctxE : perf_context_t :=
  perf_log_event_with_context ctx0 (some (lit "d")) (-1) (some []) ts0

/-! Helper lemmas. -/

theorem updFn_self {α : Type} (f : ℕ → α) (i : ℕ) (x : α) :
    updFn f i x i = x := by
  simp [updFn]

theorem updFn_ne {α : Type} (f : ℕ → α) (i j : ℕ) (x : α) (h : j ≠ i) :
    updFn f i x j = f j := by
  simp [updFn, h]

/-- Every recording API entry point starts with the `config.enabled` gate
and returns without touching the state when it is off. -/
theorem applyOp_of_not_enabled (op : Op) (s : perf_context_t)
    (h : s.config.enabled = false) : applyOp op s = s := by
  cases op <;>
    simp [applyOp, perf_start_milestone_labeled, perf_end_milestone_labeled,
      perf_log_event_with_context, perf_log_iteration,
      perf_log_algorithm_step, perf_register_thread, perf_unregister_thread,
      perf_reset, h]

/-- C3: with enabled = false, no API call — start/end milestone, event,
iteration, algorithm step (and also thread register/unregister and reset) —
publishes a record: the whole context, and in particular the record count,
is unchanged by every such call. -/
theorem theorem_C3 (s : perf_context_t) (op : Op)
    (h : s.config.enabled = false) :
    applyOp op s = s ∧ (applyOp op s).log_count = s.log_count := by
  have e := applyOp_of_not_enabled op s h
  exact ⟨e, by rw [e]⟩

/-- Witness for C3 at a concrete disabled context and a concrete event
call. -/
theorem witness_C3 :
    ctxDisabled.config.enabled = false ∧
      (applyOp (Op.logEvent (some (lit "e")) 1 none ts0) ctxDisabled).log_count
        = ctxDisabled.log_count :=
  ⟨by decide, (theorem_C3 ctxDisabled (Op.logEvent (some (lit "e")) 1 none ts0)
    (by decide)).2⟩

/-- The inactive-end case of perf_end_milestone_labeled returns before any
state change. -/
theorem end_milestone_inactive (s : perf_context_t) (k : ℕ)
    (label : Option CStr) (now : perf_timestamp_t) (os : OsMem)
    (cpu : perf_cpu_t) (h : s.milestone_active k = false) :
    perf_end_milestone_labeled s k label now os cpu = s := by
  unfold perf_end_milestone_labeled
  split <;> rfl

/-- C4: ending a milestone that is not active publishes no record and
changes no state; starting a milestone twice keeps only the second start
timestamp, and the following end computes the published duration from the
second start. -/
theorem theorem_C4 :
    (∀ (s : perf_context_t) (k : ℕ) (label : Option CStr)
        (now : perf_timestamp_t) (os : OsMem) (cpu : perf_cpu_t),
      s.milestone_active k = false →
      perf_end_milestone_labeled s k label now os cpu = s) ∧
    (∀ (s : perf_context_t) (k : ℕ) (l1 l2 le : Option CStr)
        (t1 t2 te : perf_timestamp_t) (os : OsMem) (cpu : perf_cpu_t),
      s.config.enabled = true → k < PERF_MILESTONE_COUNT →
      s.log_count < s.log_capacity →
      (perf_start_milestone_labeled (perf_start_milestone_labeled s k l1 t1)
          k l2 t2).milestone_starts k = t2 ∧
      (perf_end_milestone_labeled
          (perf_start_milestone_labeled (perf_start_milestone_labeled s k l1 t1)
            k l2 t2) k le te os cpu).log_count = s.log_count + 1 ∧
      ((perf_end_milestone_labeled
          (perf_start_milestone_labeled (perf_start_milestone_labeled s k l1 t1)
            k l2 t2) k le te os cpu).log_entries s.log_count).duration_ms
        = perf_timestamp_diff_ms t2 te) := by
  constructor
  · exact end_milestone_inactive
  · intro s k l1 l2 le t1 t2 te os cpu hen hk hcap
    have hk' : ¬ (PERF_MILESTONE_COUNT ≤ k) := by omega
    simp only [perf_start_milestone_labeled, perf_end_milestone_labeled, hen,
      hk', or_self, Bool.true_eq_false, false_or, if_false, updFn_self]
    simp [updFn_self, hcap, updFn, perf_timestamp_diff_ms]

/-- Witness for C4: the inactive-end no-op and the double-start scenario at
concrete inputs. -/
theorem witness_C4 :
    perf_end_milestone_labeled ctx0 3 none ts0 osm0 zeroCpu = ctx0 ∧
    ((perf_end_milestone_labeled
        (perf_start_milestone_labeled
          (perf_start_milestone_labeled ctx0 0 none ts0) 0 none ts1)
        0 none ts1 osm0 zeroCpu).log_entries 0).duration_ms
      = perf_timestamp_diff_ms ts1 ts1 :=
  ⟨theorem_C4.1 ctx0 3 none ts0 osm0 zeroCpu (by decide),
   (theorem_C4.2 ctx0 0 none none none ts0 ts1 ts1 osm0 zeroCpu
      (by decide) (by decide) (by decide)).2.2⟩

/-- C9: a record published by perf_log_event_with_context writes only
milestone, timestamp, duration_ms, thread_count, label and context; the
slot's iteration_number, convergence_metric, memory and cpu keep their
previous in-buffer values — unlike perf_end_milestone_labeled, which sets
iteration_number and convergence_metric to zero. -/
theorem theorem_C9 :
    (∀ (s : perf_context_t) (l : CStr) (v : ℚ) (c : Option CStr)
        (t : perf_timestamp_t),
      s.config.enabled = true → s.log_count < s.log_capacity →
      ((perf_log_event_with_context s (some l) v c t).log_count
          = s.log_count + 1) ∧
      ((perf_log_event_with_context s (some l) v c t).log_entries s.log_count).iteration_number
          = (s.log_entries s.log_count).iteration_number ∧
      ((perf_log_event_with_context s (some l) v c t).log_entries s.log_count).convergence_metric
          = (s.log_entries s.log_count).convergence_metric ∧
      ((perf_log_event_with_context s (some l) v c t).log_entries s.log_count).memory
          = (s.log_entries s.log_count).memory ∧
      ((perf_log_event_with_context s (some l) v c t).log_entries s.log_count).cpu
          = (s.log_entries s.log_count).cpu ∧
      ((perf_log_event_with_context s (some l) v c t).log_entries s.log_count).milestone
          = PERF_MILESTONE_USER_1 ∧
      ((perf_log_event_with_context s (some l) v c t).log_entries s.log_count).timestamp
          = t ∧
      ((perf_log_event_with_context s (some l) v c t).log_entries s.log_count).duration_ms
          = v ∧
      ((perf_log_event_with_context s (some l) v c t).log_entries s.log_count).thread_count
          = s.active_threads ∧
      ((perf_log_event_with_context s (some l) v c t).log_entries s.log_count).label
          = copyLabel l) ∧
    (∀ (s : perf_context_t) (k : ℕ) (l : Option CStr)
        (t : perf_timestamp_t) (os : OsMem) (cpu : perf_cpu_t),
      s.config.enabled = true → k < PERF_MILESTONE_COUNT →
      s.milestone_active k = true → s.log_count < s.log_capacity →
      ((perf_end_milestone_labeled s k l t os cpu).log_entries s.log_count).iteration_number
          = 0 ∧
      ((perf_end_milestone_labeled s k l t os cpu).log_entries s.log_count).convergence_metric
          = 0) := by
  constructor
  · intro s l v c t hen hcap
    simp [perf_log_event_with_context, hen, hcap, updFn_self,
      perf_get_thread_count]
  · intro s k l t os cpu hen hk hact hcap
    have hk' : ¬ (PERF_MILESTONE_COUNT ≤ k) := by omega
    simp [perf_end_milestone_labeled, hen, hk', hact, hcap, updFn_self, updFn]

/-- Witness for C9 at a concrete context, event and milestone end. -/
theorem witness_C9 :
    ((perf_log_event_with_context ctx0 (some (lit "e")) 2 none ts0).log_entries 0).memory
        = (ctx0.log_entries 0).memory ∧
    ((perf_end_milestone_labeled (perf_start_milestone_labeled ctx0 5 none ts0)
        5 none ts1 osm0 zeroCpu).log_entries 0).iteration_number = 0 :=
  ⟨((theorem_C9.1 ctx0 (lit "e") 2 none ts0 (by decide) (by decide)).2.2.2.1),
   ((theorem_C9.2 (perf_start_milestone_labeled ctx0 5 none ts0) 5 none ts1
      osm0 zeroCpu (by decide) (by decide) (by decide) (by decide)).1)⟩

/-- Counterexample to C5: from a freshly initialized enabled context,
perf_log_event("d", -1.0) stores a record whose duration_ms is -1 < 0, so
not every stored record has duration_ms ≥ 0 (the C code repurposes the
duration field for the caller-supplied event value). -/
theorem counterexample_C5 :
    ((perf_log_event_with_context ctx0 (some (lit "d")) (-1) (some []) ts0).log_entries 0).duration_ms
        = -1 ∧
    (perf_log_event_with_context ctx0 (some (lit "d")) (-1) (some []) ts0).log_count
        = 1 ∧
    ¬ (0 ≤ ((perf_log_event_with_context ctx0 (some (lit "d")) (-1) (some []) ts0).log_entries 0).duration_ms) := by
  refine ⟨by decide, by decide, ?_⟩
  intro h
  rw [show ((perf_log_event_with_context ctx0 (some (lit "d")) (-1) (some []) ts0).log_entries 0).duration_ms = -1 from by decide] at h
  norm_num at h

/-- C5 as amended: records published by milestone ends have duration_ms ≥ 0
whenever the end timestamp is not earlier than the stored start (guaranteed
by the monotonic clock), and records published by perf_log_iteration have
duration_ms = 0; only perf_log_event_with_context stores the caller's
value, which may be negative. -/
theorem theorem_C5 :
    (∀ (s : perf_context_t) (i : ℤ) (m : ℚ) (t : perf_timestamp_t),
      s.config.enabled = true → s.log_count < s.log_capacity →
      ((perf_log_iteration s i m t).log_entries s.log_count).duration_ms = 0) ∧
    (∀ (s : perf_context_t) (k : ℕ) (l : Option CStr)
        (t : perf_timestamp_t) (os : OsMem) (cpu : perf_cpu_t),
      s.config.enabled = true → k < PERF_MILESTONE_COUNT →
      s.milestone_active k = true → s.log_count < s.log_capacity →
      tsMs (s.milestone_starts k) ≤ tsMs t →
      0 ≤ ((perf_end_milestone_labeled s k l t os cpu).log_entries s.log_count).duration_ms) := by
  constructor
  · intro s i m t hen hcap
    simp [perf_log_iteration, hen, hcap, updFn_self]
  · intro s k l t os cpu hen hk hact hcap hmono
    have hk' : ¬ (PERF_MILESTONE_COUNT ≤ k) := by omega
    simp [perf_end_milestone_labeled, hen, hk', hact, hcap, updFn_self, updFn,
      perf_timestamp_diff_ms]
    linarith

/-- Witness for C5 at a concrete iteration call and a concrete milestone
end with ordered timestamps. -/
theorem witness_C5 :
    ((perf_log_iteration ctx0 1 0 ts0).log_entries 0).duration_ms = 0 ∧
    0 ≤ ((perf_end_milestone_labeled (perf_start_milestone_labeled ctx0 0 none ts0)
        0 none ts0 osm0 zeroCpu).log_entries 0).duration_ms :=
  ⟨theorem_C5.1 ctx0 1 0 ts0 (by decide) (by decide),
   theorem_C5.2 (perf_start_milestone_labeled ctx0 0 none ts0) 0 none ts0
     osm0 zeroCpu (by decide) (by decide) (by decide) (by decide)
     (le_refl (tsMs ts0))⟩

/-- A natural below 10^k renders with at most k digits (any fuel). -/
theorem natDigitsAux_length (fuel : ℕ) : ∀ (n k : ℕ), 1 ≤ k → n < 10 ^ k →
    (natDigitsAux fuel n).length ≤ k := by
  induction fuel with
  | zero => intro n k hk _; simp [natDigitsAux]
  | succ fuel ih =>
    intro n k hk hn
    rw [natDigitsAux]
    split
    · simpa using hk
    · rename_i h10
      have hk2 : 2 ≤ k := by
        by_contra hc
        have hk1 : k = 1 := by omega
        subst hk1
        rw [pow_one] at hn
        omega
      have hpow : 10 ^ k = 10 ^ (k - 1) * 10 := by
        rw [← pow_succ]
        congr 1
        omega
      have hdiv : n / 10 < 10 ^ (k - 1) := by
        apply Nat.div_lt_of_lt_mul
        omega
      have := ih (n / 10) (k - 1) (by omega) hdiv
      simp only [List.length_append, List.length_cons, List.length_nil]
      omega

/-- A natural below 10^k has at most k decimal digits. -/
theorem natDigits_length (n k : ℕ) (hk : 1 ≤ k) (hn : n < 10 ^ k) :
    (natDigits n).length ≤ k :=
  natDigitsAux_length (n + 1) n k hk hn

/-- An integer of magnitude below 10^k renders with at most k + 1
characters (sign included). -/
theorem intRepr_length (i : ℤ) (k : ℕ) (hk : 1 ≤ k) (h : i.natAbs < 10 ^ k) :
    (intRepr i).length ≤ k + 1 := by
  unfold intRepr
  have hd := natDigits_length i.natAbs k hk h
  split
  · simp only [List.length_cons]
    omega
  · omega

/-- C6: with recording enabled and the buffer not full, perf_log_iteration
publishes exactly one CLUSTERING_ITERATION record carrying the iteration
index and convergence metric, with label "iteration_<index>" (never
truncated for C int indices) and context beginning with "convergence=";
concretely, perf_log_iteration(3, 0.42) yields one record with
iteration_number 3, convergence_metric 0.42, label "iteration_3" and
context starting with "convergence=0.42". -/
theorem theorem_C6 :
    (∀ (s : perf_context_t) (idx : ℤ) (m : ℚ) (t : perf_timestamp_t),
      s.config.enabled = true → s.log_count < s.log_capacity →
      idx.natAbs < 2 ^ 31 →
      (perf_log_iteration s idx m t).log_count = s.log_count + 1 ∧
      ((perf_log_iteration s idx m t).log_entries s.log_count).milestone
          = PERF_MILESTONE_CLUSTERING_ITERATION ∧
      ((perf_log_iteration s idx m t).log_entries s.log_count).iteration_number
          = idx ∧
      ((perf_log_iteration s idx m t).log_entries s.log_count).convergence_metric
          = m ∧
      ((perf_log_iteration s idx m t).log_entries s.log_count).label
          = lit "iteration_" ++ intRepr idx ∧
      (((perf_log_iteration s idx m t).log_entries s.log_count).context).take 12
          = lit "convergence=") ∧
    (mkRat 42 100 = (42 : ℚ) / 100) ∧
    ((perf_log_iteration ctx0 3 (mkRat 42 100) ts0).log_count = 1 ∧
      ((perf_log_iteration ctx0 3 (mkRat 42 100) ts0).log_entries 0).milestone
          = PERF_MILESTONE_CLUSTERING_ITERATION ∧
      ((perf_log_iteration ctx0 3 (mkRat 42 100) ts0).log_entries 0).iteration_number
          = 3 ∧
      ((perf_log_iteration ctx0 3 (mkRat 42 100) ts0).log_entries 0).convergence_metric
          = mkRat 42 100 ∧
      ((perf_log_iteration ctx0 3 (mkRat 42 100) ts0).log_entries 0).label
          = lit "iteration_3" ∧
      (((perf_log_iteration ctx0 3 (mkRat 42 100) ts0).log_entries 0).context).take 16
          = lit "convergence=0.42") := by
  refine ⟨?_, by norm_num [Rat.mkRat_eq_div], ?_⟩
  · intro s idx m t hen hcap hidx
    have hlabel : (lit "iteration_" ++ intRepr idx).take (PERF_MAX_LABEL_LEN - 1)
        = lit "iteration_" ++ intRepr idx := by
      apply List.take_of_length_le
      have h10 : idx.natAbs < 10 ^ 10 := lt_of_lt_of_le hidx (by norm_num)
      have := intRepr_length idx 10 (by norm_num) h10
      simp only [List.length_append]
      have hlit : (lit "iteration_").length = 10 := by decide
      rw [hlit]
      simp [PERF_MAX_LABEL_LEN]
      omega
    have hctx : ((lit "convergence=" ++ formatFixed 6 m).take
        (PERF_MAX_LABEL_LEN - 1)).take 12 = lit "convergence=" := by
      rw [List.take_take]
      have h12 : (12 : ℕ) ⊓ (PERF_MAX_LABEL_LEN - 1) = 12 := by decide
      rw [h12]
      exact List.take_left' (by decide)
    simp [perf_log_iteration, hen, hcap, updFn_self, hlabel, hctx]
  · refine ⟨by decide, by decide, by decide, by decide, by decide, by decide⟩

/-- Witness for C6 applying the general part at the concrete call
iteration(3, 0.42). -/
theorem witness_C6 :
    ((perf_log_iteration ctx0 3 (mkRat 42 100) ts0).log_entries 0).iteration_number
      = 3 :=
  (theorem_C6.1 ctx0 3 (mkRat 42 100) ts0 (by decide) (by decide)
    (by decide)).2.2.1

/-- A publish attempt on a full buffer returns with the context unchanged
(the C code checks log_count < log_capacity and otherwise does nothing). -/
theorem event_full (s : perf_context_t) (label : Option CStr) (v : ℚ)
    (c : Option CStr) (t : perf_timestamp_t)
    (h : s.log_capacity ≤ s.log_count) :
    perf_log_event_with_context s label v c t = s := by
  unfold perf_log_event_with_context
  have h' : ¬ (s.log_count < s.log_capacity) := by omega
  split
  · rfl
  · split
    · rfl
    · rfl

/-- No API call changes the buffer capacity. -/
theorem applyOp_log_capacity (op : Op) (s : perf_context_t) :
    (applyOp op s).log_capacity = s.log_capacity := by
  cases op <;>
    simp only [applyOp, perf_start_milestone_labeled, perf_end_milestone_labeled,
      perf_log_event_with_context, perf_log_iteration, perf_log_algorithm_step,
      perf_register_thread, perf_unregister_thread, perf_reset] <;>
    (repeat' split) <;> rfl

/-- Every API call keeps log_count within log_capacity. -/
theorem applyOp_log_count_le (op : Op) (s : perf_context_t)
    (h : s.log_count ≤ s.log_capacity) :
    (applyOp op s).log_count ≤ s.log_capacity := by
  cases op <;>
    simp only [applyOp, perf_start_milestone_labeled, perf_end_milestone_labeled,
      perf_log_event_with_context, perf_log_iteration, perf_log_algorithm_step,
      perf_register_thread, perf_unregister_thread, perf_reset] <;>
    (repeat' split) <;> simp_all <;> omega


/-- A successful publish of an event increments log_count by one and leaves
capacity and configuration alone. -/
theorem event_step (s : perf_context_t) (l : CStr) (v : ℚ) (c : Option CStr)
    (t : perf_timestamp_t) (hen : s.config.enabled = true)
    (hcap : s.log_count < s.log_capacity) :
    (perf_log_event_with_context s (some l) v c t).log_count = s.log_count + 1 ∧
    (perf_log_event_with_context s (some l) v c t).log_capacity = s.log_capacity ∧
    (perf_log_event_with_context s (some l) v c t).config = s.config := by
  simp [perf_log_event_with_context, hen, hcap]

/-- After n publish attempts from a fresh context the count is
min n capacity. -/
theorem evStep_iterate (n : ℕ) :
    (evStep^[n] ctx0).log_count = min n PERF_MAX_LOG_ENTRIES ∧
    (evStep^[n] ctx0).log_capacity = PERF_MAX_LOG_ENTRIES ∧
    (evStep^[n] ctx0).config.enabled = true := by
  induction n with
  | zero => refine ⟨by decide, by decide, by decide⟩
  | succ n ih =>
    obtain ⟨hc, hcap, hen⟩ := ih
    rw [Function.iterate_succ_apply']
    by_cases hfull : n < PERF_MAX_LOG_ENTRIES
    · have hlt : (evStep^[n] ctx0).log_count < (evStep^[n] ctx0).log_capacity := by
        rw [hc, hcap]
        omega
      obtain ⟨e1, e2, e3⟩ := event_step (evStep^[n] ctx0) (lit "x") 0 none ts0 hen hlt
      refine ⟨?_, ?_, ?_⟩
      · rw [show evStep (evStep^[n] ctx0)
            = perf_log_event_with_context (evStep^[n] ctx0) (some (lit "x")) 0 none ts0 from rfl,
          e1, hc]
        omega
      · rw [show evStep (evStep^[n] ctx0)
            = perf_log_event_with_context (evStep^[n] ctx0) (some (lit "x")) 0 none ts0 from rfl,
          e2, hcap]
      · rw [show evStep (evStep^[n] ctx0)
            = perf_log_event_with_context (evStep^[n] ctx0) (some (lit "x")) 0 none ts0 from rfl,
          e3, hen]
    · have hge : (evStep^[n] ctx0).log_capacity ≤ (evStep^[n] ctx0).log_count := by
        rw [hc, hcap]
        omega
      have e := event_full (evStep^[n] ctx0) (some (lit "x")) 0 none ts0 hge
      rw [show evStep (evStep^[n] ctx0)
          = perf_log_event_with_context (evStep^[n] ctx0) (some (lit "x")) 0 none ts0 from rfl,
        e]
      refine ⟨?_, hcap, hen⟩
      rw [hc]
      omega

/-- The 10001st publish attempt hits the full buffer and leaves the state
identical to the state after 10000 attempts. -/
theorem evStep_saturates : evStep^[10001] ctx0 = evStep^[10000] ctx0 := by
  have h := evStep_iterate 10000
  have hge : (evStep^[10000] ctx0).log_capacity ≤ (evStep^[10000] ctx0).log_count := by
    rw [h.1, h.2.1]
    norm_num [PERF_MAX_LOG_ENTRIES]
  have : (10001 : ℕ) = 10000 + 1 := rfl
  rw [this, Function.iterate_succ_apply']
  exact event_full (evStep^[10000] ctx0) (some (lit "x")) 0 none ts0 hge

/-- Counterexample to C1: the code maintains no dropped-records counter.
No function of the program state can equal
total_publish_attempts - min(record_count, capacity): the states after
10000 and after 10001 publish attempts are identical (the drop is silent),
yet the claimed formula gives 0 and 1 respectively. -/
theorem counterexample_C1 :
    ¬ ∃ dropCount : perf_context_t → ℤ,
        ∀ n : ℕ, dropCount (evStep^[n] ctx0)
          = (n : ℤ) - min (n : ℤ) (PERF_MAX_LOG_ENTRIES : ℤ) := by
  rintro ⟨f, hf⟩
  have h1 := hf 10000
  have h2 := hf 10001
  rw [evStep_saturates, h1] at h2
  norm_num [PERF_MAX_LOG_ENTRIES] at h2

/-- Capacity is also constant along whole runs. -/
theorem run_log_capacity (ops : List Op) (s : perf_context_t) :
    (run ops s).log_capacity = s.log_capacity := by
  induction ops generalizing s with
  | nil => rfl
  | cons op ops ih =>
    simp only [run, List.foldl_cons] at *
    rw [ih, applyOp_log_capacity]

/-- A milestone-end publish attempt on a full buffer stores no record: the
log buffer, its count and every other field are unchanged, except that the
code still clears milestone_active[milestone] after the skipped store. -/
theorem end_milestone_full (s : perf_context_t) (k : ℕ) (label : Option CStr)
    (now : perf_timestamp_t) (os : OsMem) (cpu : perf_cpu_t)
    (hen : s.config.enabled = true) (hk : k < PERF_MILESTONE_COUNT)
    (hact : s.milestone_active k = true)
    (hfull : s.log_capacity ≤ s.log_count) :
    perf_end_milestone_labeled s k label now os cpu
      = { s with milestone_active := updFn s.milestone_active k false } := by
  have hk' : ¬ (PERF_MILESTONE_COUNT ≤ k) := by omega
  have hlt : ¬ (s.log_count < s.log_capacity) := by omega
  simp [perf_end_milestone_labeled, hen, hk', hact, hlt]

/-- C1 as amended: along every run from an initialized context the record
buffer never holds more than its capacity PERF_MAX_LOG_ENTRIES = 10000.
A publish attempt made while the buffer is full abandons the write
silently: an event attempt leaves the recording state completely
unchanged, and a milestone-end attempt stores no record and changes
nothing except still clearing that milestone's active flag. The code
keeps no dropped-records counter. -/
theorem theorem_C1 :
    (∀ (config : perf_config_t) (junk : ℕ → perf_metrics_t)
        (t0 : perf_timestamp_t) (ops : List Op),
      (run ops (perf_init_with_config config junk t0)).log_count
        ≤ PERF_MAX_LOG_ENTRIES) ∧
    (∀ (s : perf_context_t) (label : Option CStr) (v : ℚ)
        (c : Option CStr) (t : perf_timestamp_t),
      s.log_capacity ≤ s.log_count →
      perf_log_event_with_context s label v c t = s) ∧
    (∀ (s : perf_context_t) (k : ℕ) (label : Option CStr)
        (now : perf_timestamp_t) (os : OsMem) (cpu : perf_cpu_t),
      s.config.enabled = true → k < PERF_MILESTONE_COUNT →
      s.milestone_active k = true → s.log_capacity ≤ s.log_count →
      perf_end_milestone_labeled s k label now os cpu
        = { s with milestone_active := updFn s.milestone_active k false }) := by
  refine ⟨?_, event_full, end_milestone_full⟩
  intro config junk t0 ops
  have key : ∀ (l : List Op) (s : perf_context_t),
      s.log_count ≤ s.log_capacity →
      (run l s).log_count ≤ (run l s).log_capacity := by
    intro l
    induction l with
    | nil => intro s hs; simpa [run] using hs
    | cons op ops ih =>
      intro s hs
      simp only [run, List.foldl_cons] at *
      apply ih
      rw [applyOp_log_capacity]
      exact applyOp_log_count_le op s hs
  have h := key ops (perf_init_with_config config junk t0) (by simp [perf_init_with_config])
  rw [run_log_capacity] at h
  exact h

/-- Witness for C1 at the empty run, a concrete full context, and a
concrete full context carrying an open milestone. -/
theorem witness_C1 :
    (run [] ctx0).log_count ≤ PERF_MAX_LOG_ENTRIES ∧
    perf_log_event_with_context ctxFull (some (lit "x")) 0 none ts0 = ctxFull ∧
    perf_end_milestone_labeled (perf_start_milestone_labeled ctxFull 0 none ts1)
        0 none ts1 osm0 zeroCpu
      = { perf_start_milestone_labeled ctxFull 0 none ts1 with
          milestone_active := updFn
            (perf_start_milestone_labeled ctxFull 0 none ts1).milestone_active
            0 false } :=
  ⟨theorem_C1.1 default_config junkEntries0 ts0 [],
   theorem_C1.2.1 ctxFull (some (lit "x")) 0 none ts0 (by decide),
   theorem_C1.2.2 (perf_start_milestone_labeled ctxFull 0 none ts1) 0 none ts1
     osm0 zeroCpu (by decide) (by decide) (by decide) (by decide)⟩


/-- perf_register_thread returns the pre-increment active-thread count as
the new thread id and increments the counter; the configuration is left
alone. There is no bound check against PERF_MAX_THREADS anywhere. -/
theorem register_effect (s : perf_context_t) (t : perf_timestamp_t)
    (hen : s.config.enabled = true) (htr : s.config.track_threads = true) :
    (perf_register_thread s t).1 = s.active_threads ∧
    (perf_register_thread s t).2.active_threads = s.active_threads + 1 ∧
    (perf_register_thread s t).2.config = s.config := by
  simp only [perf_register_thread, hen, htr]
  repeat' split
  all_goals simp_all

/-- n register calls from a fresh context leave the counter at n. -/
theorem regStep_iterate (n : ℕ) :
    (regStep^[n] ctx0).active_threads = n ∧
    (regStep^[n] ctx0).config = ctx0.config := by
  induction n with
  | zero => exact ⟨rfl, rfl⟩
  | succ n ih =>
    obtain ⟨ha, hcfg⟩ := ih
    rw [Function.iterate_succ_apply']
    have hen : (regStep^[n] ctx0).config.enabled = true := by
      rw [hcfg]
      rfl
    have htr : (regStep^[n] ctx0).config.track_threads = true := by
      rw [hcfg]
      rfl
    obtain ⟨_, e2, e3⟩ := register_effect (regStep^[n] ctx0) ts0 hen htr
    refine ⟨?_, ?_⟩
    · show (perf_register_thread (regStep^[n] ctx0) ts0).2.active_threads = _
      rw [e2, ha]
      push_cast
      ring
    · show (perf_register_thread (regStep^[n] ctx0) ts0).2.config = _
      rw [e3, hcfg]

/-- C2 (code bug): with 256 threads already registered (the full capacity
of the thread_data array), the 257th perf_register_thread call does NOT
fail soft with -1 as the specification requires: it returns id 256 — an
index one past the end of the PERF_MAX_THREADS-slot array, i.e. the C code
performs an out-of-bounds write into thread_data[256]. -/
theorem theorem_C2 :
    (perf_register_thread (regStep^[256] ctx0) ts0).1 = 256 ∧
    (PERF_MAX_THREADS : ℤ) ≤ (perf_register_thread (regStep^[256] ctx0) ts0).1 := by
  have h := regStep_iterate 256
  have hen : (regStep^[256] ctx0).config.enabled = true := by
    rw [h.2]
    rfl
  have htr : (regStep^[256] ctx0).config.track_threads = true := by
    rw [h.2]
    rfl
  obtain ⟨e1, _, _⟩ := register_effect (regStep^[256] ctx0) ts0 hen htr
  rw [e1, h.1]
  norm_num [PERF_MAX_THREADS]

/-- Counterexample to C8: thread indices ARE reassigned after an
unregister. Register twice (ids 0 and 1), unregister the thread holding
id 1, register again: the new call returns id 1 — the same index as the
second call — because ids are taken from the decremented live counter. -/
theorem counterexample_C8 :
    (perf_register_thread (perf_register_thread ctx0 ts0).2 ts0).1 = 1 ∧
    (perf_register_thread
      (perf_unregister_thread
        (perf_register_thread (perf_register_thread ctx0 ts0).2 ts0).2
        1 ts0)
      ts0).1 = 1 := by
  exact ⟨by decide, by decide⟩

/-- C8 as amended: perf_register_thread hands out the pre-increment value
of the active-thread counter, so indices are assigned monotonically from
zero only while no unregister intervenes; perf_unregister_thread
decrements the active-thread counter and does not retire the index, so a
later register may return a previously assigned index. -/
theorem theorem_C8 :
    (∀ (s : perf_context_t) (t : perf_timestamp_t),
      s.config.enabled = true → s.config.track_threads = true →
      (perf_register_thread s t).1 = s.active_threads ∧
      (perf_register_thread s t).2.active_threads = s.active_threads + 1) ∧
    (∀ (s : perf_context_t) (tlsId : ℤ) (t : perf_timestamp_t),
      s.config.enabled = true → s.config.track_threads = true →
      (perf_unregister_thread s tlsId t).active_threads
        = s.active_threads - 1) ∧
    (∀ n : ℕ, (perf_register_thread (regStep^[n] ctx0) ts0).1 = n) := by
  refine ⟨?_, ?_, ?_⟩
  · intro s t hen htr
    obtain ⟨e1, e2, _⟩ := register_effect s t hen htr
    exact ⟨e1, e2⟩
  · intro s tlsId t hen htr
    simp only [perf_unregister_thread, hen, htr]
    repeat' split
    all_goals simp_all
  · intro n
    have h := regStep_iterate n
    have hen : (regStep^[n] ctx0).config.enabled = true := by
      rw [h.2]
      rfl
    have htr : (regStep^[n] ctx0).config.track_threads = true := by
      rw [h.2]
      rfl
    obtain ⟨e1, _, _⟩ := register_effect (regStep^[n] ctx0) ts0 hen htr
    rw [e1, h.1]

/-- Witness for C8 at a concrete register and unregister. -/
theorem witness_C8 :
    (perf_register_thread ctx0 ts0).1 = ctx0.active_threads ∧
    (perf_unregister_thread ctx0 0 ts0).active_threads
      = ctx0.active_threads - 1 :=
  ⟨(theorem_C8.1 ctx0 ts0 (by decide) (by decide)).1,
   theorem_C8.2.1 ctx0 0 ts0 (by decide) (by decide)⟩

/-- C10 as amended: perf_get_milestone_statistics returns -1 with *stats
left untouched when the milestone is out of range (the memset happens only
after that check; a NULL stats pointer also returns -1 with nothing
written); it returns -1 with *stats entirely zeroed when the samples
allocation fails or no record of the milestone exists; and it returns 0
exactly when stats is non-null, the milestone is in range, the allocation
succeeds and at least one record of that milestone exists. -/
theorem theorem_C10 (sqrtFn : ℚ → ℚ) (s : perf_context_t) (k : ℕ)
    (old : perf_statistics_t) (allocOk : Bool) :
    (perf_get_milestone_statistics sqrtFn s k none allocOk = (-1, none)) ∧
    (PERF_MILESTONE_COUNT ≤ k →
      perf_get_milestone_statistics sqrtFn s k (some old) allocOk
        = (-1, some old)) ∧
    (k < PERF_MILESTONE_COUNT →
      perf_get_milestone_statistics sqrtFn s k (some old) false
        = (-1, some zeroStatistics)) ∧
    (k < PERF_MILESTONE_COUNT →
      (∀ i, i < s.log_count → (s.log_entries i).milestone ≠ k) →
      perf_get_milestone_statistics sqrtFn s k (some old) true
        = (-1, some zeroStatistics)) ∧
    ((k < PERF_MILESTONE_COUNT → allocOk = true →
      (∃ i, i < s.log_count ∧ (s.log_entries i).milestone = k) →
      (perf_get_milestone_statistics sqrtFn s k (some old) allocOk).1 = 0) ∧
     ((perf_get_milestone_statistics sqrtFn s k (some old) allocOk).1 = 0 →
      k < PERF_MILESTONE_COUNT ∧ allocOk = true ∧
        ∃ i, i < s.log_count ∧ (s.log_entries i).milestone = k)) := by
  refine ⟨rfl, ?_, ?_, ?_, ?_, ?_⟩
  · intro h
    simp [perf_get_milestone_statistics, h]
  · intro h
    have h' : ¬ (PERF_MILESTONE_COUNT ≤ k) := by omega
    simp [perf_get_milestone_statistics, h']
  · intro h hnone
    have h' : ¬ (PERF_MILESTONE_COUNT ≤ k) := by omega
    have hsamp : ((List.range s.log_count).filter
        (fun i => (s.log_entries i).milestone = k)) = [] := by
      rw [List.filter_eq_nil_iff]
      intro a ha
      simp only [List.mem_range] at ha
      simpa using hnone a ha
    simp [perf_get_milestone_statistics, h', hsamp]
  · rintro hk ha ⟨i, hi, hm⟩
    have h' : ¬ (PERF_MILESTONE_COUNT ≤ k) := by omega
    have hmem : i ∈ (List.range s.log_count).filter
        (fun i => (s.log_entries i).milestone = k) := by
      rw [List.mem_filter]
      exact ⟨List.mem_range.2 hi, by simpa using hm⟩
    have hne : (List.range s.log_count).filter
        (fun i => (s.log_entries i).milestone = k) ≠ [] :=
      List.ne_nil_of_mem hmem
    subst ha
    simp [perf_get_milestone_statistics, h', List.length_eq_zero, hne]
  · intro h0
    by_cases hk : k < PERF_MILESTONE_COUNT
    · by_cases ha : allocOk = true
      · by_cases hex : ∃ i, i < s.log_count ∧ (s.log_entries i).milestone = k
        · exact ⟨hk, ha, hex⟩
        · exfalso
          have h' : ¬ (PERF_MILESTONE_COUNT ≤ k) := by omega
          have hsamp : ((List.range s.log_count).filter
              (fun i => (s.log_entries i).milestone = k)) = [] := by
            rw [List.filter_eq_nil_iff]
            intro a haa
            simp only [List.mem_range] at haa
            intro hd
            exact hex ⟨a, haa, by simpa using hd⟩
          subst ha
          simp [perf_get_milestone_statistics, h', hsamp] at h0
      · exfalso
        have h' : ¬ (PERF_MILESTONE_COUNT ≤ k) := by omega
        have ha' : allocOk = false := by
          cases allocOk
          · rfl
          · exact absurd rfl ha
        subst ha'
        simp [perf_get_milestone_statistics, h'] at h0
    · exfalso
      have h' : PERF_MILESTONE_COUNT ≤ k := by omega
      simp [perf_get_milestone_statistics, h'] at h0



/-- Counterexample to C10: for an out-of-range milestone (47 =
PERF_MILESTONE_COUNT) the function returns -1 but does NOT zero *stats —
the check precedes the memset — so a caller-provided struct with
sample_count = 5 still holds sample_count = 5 afterwards, not 0. -/
theorem counterexample_C10 :
    perf_get_milestone_statistics id ctx0 47 (some nzStatistics) true
        = (-1, some nzStatistics) ∧
    nzStatistics.sample_count = 5 :=
  ⟨by decide, rfl⟩

/-- Witness for C10 covering the out-of-range, allocation-failure,
no-record and success cases at concrete inputs. -/
theorem witness_C10 :
    perf_get_milestone_statistics id ctx0 48 (some zeroStatistics) true
        = (-1, some zeroStatistics) ∧
    perf_get_milestone_statistics id ctx0 0 (some zeroStatistics) false
        = (-1, some zeroStatistics) ∧
    perf_get_milestone_statistics id ctx0 0 (some zeroStatistics) true
        = (-1, some zeroStatistics) ∧
    (perf_get_milestone_statistics id ctxE 42 (some zeroStatistics) true).1
        = 0 ∧
    (42 < PERF_MILESTONE_COUNT ∧ (true : Bool) = true ∧
      ∃ i, i < ctxE.log_count ∧ (ctxE.log_entries i).milestone = 42) :=
  ⟨(theorem_C10 id ctx0 48 zeroStatistics true).2.1 (by decide),
   (theorem_C10 id ctx0 0 zeroStatistics false).2.2.1 (by decide),
   (theorem_C10 id ctx0 0 zeroStatistics true).2.2.2.1 (by decide)
     (fun i hi => absurd hi (Nat.not_lt_zero i)),
   (theorem_C10 id ctxE 42 zeroStatistics true).2.2.2.2.1 (by decide) rfl
     ⟨0, by decide, by decide⟩,
   (theorem_C10 id ctxE 42 zeroStatistics true).2.2.2.2.2 (by decide)⟩

/-- ASCII digits are not the newline character. -/
theorem digitChar_ne_nl (d : ℕ) (h : d < 10) : digitChar d ≠ '\n' := by
  interval_cases d <;> decide

/-- Decimal digit strings contain no newline. -/
theorem count_nl_natDigitsAux (fuel : ℕ) : ∀ n : ℕ,
    (natDigitsAux fuel n).count '\n' = 0 := by
  induction fuel with
  | zero => intro n; rfl
  | succ fuel ih =>
    intro n
    rw [natDigitsAux]
    split
    · rename_i h
      simp [List.count_cons, digitChar_ne_nl n h]
    · rw [List.count_append, ih]
      have h10 : n % 10 < 10 := Nat.mod_lt _ (by omega)
      simp [List.count_cons, digitChar_ne_nl _ h10]

/-- natDigits output contains no newline. -/
theorem count_nl_natDigits (n : ℕ) : (natDigits n).count '\n' = 0 :=
  count_nl_natDigitsAux (n + 1) n

/-- intRepr output contains no newline. -/
theorem count_nl_intRepr (i : ℤ) : (intRepr i).count '\n' = 0 := by
  unfold intRepr
  split
  · simp [List.count_cons, count_nl_natDigits]
  · exact count_nl_natDigits i.natAbs

/-- Zero padding adds no newline. -/
theorem count_nl_padZeros (w : ℕ) (s : CStr) (h : s.count '\n' = 0) :
    (padZeros w s).count '\n' = 0 := by
  unfold padZeros
  rw [List.count_append, h, List.count_replicate]
  simp

/-- formatFixed output contains no newline. -/
theorem count_nl_formatFixed (prec : ℕ) (v : ℚ) :
    (formatFixed prec v).count '\n' = 0 := by
  unfold formatFixed
  rw [List.count_append, List.count_append, List.count_cons]
  rw [count_nl_natDigits, count_nl_padZeros _ _ (count_nl_natDigits _)]
  split <;> simp [List.count_cons]

/-- Milestone names contain no newline. -/
theorem count_nl_milestone_name (m : ℕ) :
    (perf_milestone_name m).count '\n' = 0 := by
  by_cases h : m < PERF_MILESTONE_COUNT
  · revert h
    have : ∀ m', m' < 47 → (perf_milestone_name m').count '\n' = 0 := by decide
    exact this m
  · simp [perf_milestone_name, h]
    decide

/-- A CSV row carries exactly one newline beyond those inside the record's
label and context strings. -/
theorem count_nl_csvRow (e : perf_metrics_t) :
    (csvRow e).count '\n'
      = 1 + e.label.count '\n' + e.context.count '\n' := by
  unfold csvRow
  simp [List.count_append, List.count_cons, count_nl_intRepr,
    count_nl_natDigits, count_nl_padZeros _ _ (count_nl_natDigits _),
    count_nl_formatFixed, count_nl_milestone_name]
  omega

/-- Draining n newline-free-labelled records as CSV rows writes exactly n
newlines. -/
theorem count_nl_rows (f : ℕ → perf_metrics_t) (n : ℕ)
    (h : ∀ i, i < n →
      (f i).label.count '\n' = 0 ∧ (f i).context.count '\n' = 0) :
    (((List.range n).map (fun i => csvRow (f i))).flatten).count '\n' = n := by
  induction n with
  | zero => rfl
  | succ n ih =>
    rw [List.range_succ, List.map_append, List.flatten_append,
      List.count_append, ih (fun i hi => h i (by omega))]
    have hl := (h n (by omega)).1
    have hc := (h n (by omega)).2
    simp [count_nl_csvRow, hl, hc]

/-- With recording enabled, a live output stream and CSV format,
perf_flush_logs emits exactly the CSV rows of the buffered records. -/
theorem flush_logs_csv (s : perf_context_t) (hen : s.config.enabled = true)
    (hf : s.config.output_format = PERF_FORMAT_CSV)
    (ho : s.config.output_file ≠ none) :
    perf_flush_logs s
      = ((List.range s.log_count).map
          (fun i => csvRow (s.log_entries i))).flatten := by
  simp [perf_flush_logs, hen, hf, ho]

/-- C7 as amended: with recording enabled and N records buffered,
perf_export_csv writes the canonical header line plus one CSV data row per
record — exactly N + 1 newline-terminated lines provided no buffered
record's label or context itself contains a newline (the emitter applies
no quoting) — and then restores the previous output stream and output
format; if opening the file fails it restores the prior output stream and
writes nothing. -/
theorem theorem_C7 (s : perf_context_t) (handle : ℕ)
    (hen : s.config.enabled = true)
    (hclean : ∀ i, i < s.log_count →
      (s.log_entries i).label.count '\n' = 0 ∧
      (s.log_entries i).context.count '\n' = 0) :
    ((perf_export_csv s (some handle)).2).count '\n' = s.log_count + 1 ∧
    (perf_export_csv s (some handle)).1 = s ∧
    perf_export_csv s none = (s, []) := by
  refine ⟨?_, rfl, rfl⟩
  have hw : (perf_export_csv s (some handle)).2
      = csvHeader ++ ((List.range s.log_count).map
          (fun i => csvRow (s.log_entries i))).flatten := by
    show csvHeader ++ perf_flush_logs { s with config := { s.config with output_file := some handle, output_format := PERF_FORMAT_CSV } } = _
    rw [flush_logs_csv { s with config := { s.config with output_file := some handle, output_format := PERF_FORMAT_CSV } } hen rfl (by simp)]
  rw [hw, List.count_append]
  have hhead : csvHeader.count '\n' = 1 := by decide
  rw [hhead, count_nl_rows s.log_entries s.log_count hclean]
  omega

/-- Counterexample to C7: a record whose label contains a newline (labels
are copied verbatim, unquoted) makes the exported file 3 lines for N = 1
records, not N + 1 = 2. -/
theorem counterexample_C7 :
    ((perf_export_csv
        (perf_log_event_with_context ctx0 (some (lit "a\nb")) 1 (some []) ts0)
        (some 5)).2).count '\n' = 3 ∧
    (perf_log_event_with_context ctx0 (some (lit "a\nb")) 1 (some []) ts0).log_count
        = 1 :=
  ⟨by decide, by decide⟩

/-- Witness for C7 at a context holding one newline-free record. -/
theorem witness_C7 :
    ((perf_export_csv ctxE (some 7)).2).count '\n' = ctxE.log_count + 1 ∧
    (perf_export_csv ctxE (some 7)).1 = ctxE :=
  ⟨(theorem_C7 ctxE 7 (by decide)
      (by decide)).1,
   (theorem_C7 ctxE 7 (by decide)
      (by decide)).2.1⟩

end AncestralClustPerf
